import Mathlib

/-!
Verification of the playback-session engine of a Discord music bot
(src/bot.py, src/database.py, src/config.py) via a shallow embedding.

External collaborators (the wavelink voice transport, the resolver
backends, yt-dlp, the SQLite driver) are modelled as oracles passed in as
function arguments; the repository's own control flow is translated
statement by statement.
-/

namespace MusicBot

/-- A playable track as the code sees it (wavelink `Playable` metadata). -/
structure Track where
  title : String
  author : String
  uri : String
  length : Nat
  deriving DecidableEq

/-- Per-player state relevant to the track-end handler.  The
`twentyfourseven` and `autoplay_enabled` fields are attached to the player
object ad hoc in the source (`hasattr` probes), so each is an
`Option Bool`: `none` means the attribute is absent. -/
structure PlayerState where
  queue : List Track
  twentyfourseven : Option Bool
  autoplay_enabled : Option Bool
  deriving DecidableEq

/-- `hasattr(player, a) and player.a` for an ad-hoc boolean attribute. -/
def attrTrue : Option Bool → Bool
  | some b => b
  | none => false

/-- The reasons a `trackEnded` event can carry (wavelink/Lavalink). -/
inductive EndReason where
  | finished
  | stopped
  | replaced
  | loadFailed
  deriving DecidableEq

/-- What the track-end handler does with the voice transport. -/
inductive TrackEndAction where
  | playNext (t : Track)
  | playAutoplay (t : Track)
  | noAction
  deriving DecidableEq

/-- `MusicBot.on_wavelink_track_end` (src/bot.py lines 209-263).
`reason` is delivered in the payload but the handler body never reads it.
`endedTrack` is `payload.track`; `search` is the external
`wavelink.Playable.search` oracle used by the autoplay branch.
The queue is modelled in its normal (non-loop) mode, where
`player.queue.get()` pops the head.  Returns the action taken and the
player state afterwards. -/
def on_wavelink_track_end (reason : EndReason) (p : PlayerState)
    (endedTrack : Option Track) (search : String → List Track) :
    TrackEndAction × PlayerState :=
  -- `if hasattr(player,'twentyfourseven') and player.twentyfourseven:`
  --   `if player.queue.is_empty and not hasattr(player,'autoplay_enabled'): return`
  if attrTrue p.twentyfourseven && p.queue.isEmpty && p.autoplay_enabled.isNone then
    (.noAction, p)
  else
    -- `if not player.queue.is_empty:` ... `next_track = player.queue.get()`
    match p.queue with
    | next :: rest => (.playNext next, { p with queue := rest })
    | [] =>
      -- `elif hasattr(player,'autoplay_enabled') and player.autoplay_enabled
      --      and payload.track:`
      if attrTrue p.autoplay_enabled then
        match endedTrack with
        | some tr =>
          -- `query = f"ytsearch:{payload.track.title} {payload.track.author}"`
          -- `if tracks and len(tracks) > 1: await player.play(tracks[1])`
          match search ("ytsearch:" ++ tr.title ++ " " ++ tr.author) with
          | _ :: second :: _ => (.playAutoplay second, p)
          | _ => (.noAction, p)
        | none => (.noAction, p)
      else (.noAction, p)

/-- The immediate part of `MusicBot.on_voice_state_update`
(src/bot.py lines 265-283): a non-bot member's voice state changed in a
channel the bot is connected to.  If the channel has no non-bot members
left and 24/7 is off, the handler starts an inline `asyncio.sleep(120)`;
we record that as a pending timer whose fire time is `now + 120`.  No
branch of the source removes or replaces an existing sleep.  Returns the
updated list of pending-timer fire times. -/
def voiceUpdateArm (memberIsBot : Bool) (beforeHasVC : Bool)
    (nonBotCount : Nat) (tfs : Option Bool) (now : Nat)
    (pending : List Nat) : List Nat :=
  if memberIsBot then pending
  else if !beforeHasVC then pending
  else if nonBotCount == 0 then
    if attrTrue tfs then pending
    else (now + 120) :: pending
  else pending

/-- The deferred part of `MusicBot.on_voice_state_update`
(src/bot.py lines 286-289): the code after the sleep wakes.  `chValid` is
whether `voice_client.channel` is still truthy, `nonBotCount` the
occupancy re-counted at fire time, `tfs` the 24/7 attribute read at fire
time.  Returns `true` iff the handler disconnects. -/
def voiceUpdateFire (chValid : Bool) (nonBotCount : Nat)
    (tfs : Option Bool) : Bool :=
  chValid && nonBotCount == 0 && !attrTrue tfs

/-- Session-level state: the player, the multiset of pending
deferred-disconnect fire times, and whether the voice connection is up. -/
structure SysState where
  player : PlayerState
  pendingTimers : List Nat
  connected : Bool
  deriving DecidableEq

/-- The asynchronous events the bot reacts to.  Oracles for the outside
world (search results, fire-time occupancy, channel validity) travel in
the event. -/
inductive Event where
  | trackEnd (reason : EndReason) (ended : Option Track)
      (search : String → List Track)
  | voiceUpdate (memberIsBot : Bool) (beforeHasVC : Bool) (nonBotCount : Nat)
  | timerFire (fireAt : Nat) (chValid : Bool) (nonBotCount : Nat)
  | leaveCmd (inVoice : Bool)
  | toggle247 (inVoice : Bool)

/-- One event step of the bot, combining the handlers above with the
`leave` command (src/bot.py lines 329-336, which only disconnects) and the
`247` command (src/bot.py lines 816-830, which only toggles the flag).
Neither command touches a pending sleep, and the track-end handler
(src/bot.py lines 209-263) contains no timer code, so `pendingTimers`
changes only in the `voiceUpdate` (arm) and `timerFire` (expire) cases. -/
def sysStep (now : Nat) (s : SysState) : Event → SysState
  | .trackEnd reason ended search =>
    { s with player := (on_wavelink_track_end reason s.player ended search).2 }
  | .voiceUpdate isBot hasVC n =>
    { s with pendingTimers :=
        voiceUpdateArm isBot hasVC n s.player.twentyfourseven now s.pendingTimers }
  | .timerFire fireAt chValid n =>
    { s with
      connected := s.connected && !voiceUpdateFire chValid n s.player.twentyfourseven,
      pendingTimers := s.pendingTimers.erase fireAt }
  | .leaveCmd inVoice =>
    if inVoice then { s with connected := false } else s
  | .toggle247 inVoice =>
    if inVoice then
      { s with player :=
          { s.player with
            twentyfourseven := some (!attrTrue s.player.twentyfourseven) } }
    else s

/-! Character-list utilities mirroring the Python string operations used
by `play` and `yt_dlp_extract`.  Queries are modelled as `List Char`. -/

/-- Does `l` start with the pattern `p`?  (`str.startswith`.) -/
def startsWithChars : List Char → List Char → Bool
  | _, [] => true
  | [], _ :: _ => false
  | c :: cs, p :: ps => c == p && startsWithChars cs ps

/-- Does `l` contain `p` as a contiguous substring?  (`in` on `str`.) -/
def containsChars (p : List Char) : List Char → Bool
  | [] => startsWithChars [] p
  | c :: rest => startsWithChars (c :: rest) p || containsChars p rest

/-- `str.strip()`: drop whitespace from both ends. -/
def trimChars (l : List Char) : List Char :=
  ((l.dropWhile Char.isWhitespace).reverse.dropWhile Char.isWhitespace).reverse

/-- `str.lower()` (ASCII, which is all the cache keys need). -/
def lowerChars (l : List Char) : List Char :=
  l.map Char.toLower

/-- Scheme length recognized at a position by the regex `https?://`:
8 for `https://`, 7 for `http://`, 0 if neither is present here. -/
def schemeLen (l : List Char) : Nat :=
  if startsWithChars l "https://".toList then 8
  else if startsWithChars l "http://".toList then 7
  else 0

/-- `re.search(r"https?://\S+", query)`: scan for the first position where
a scheme starts and at least one further non-space character follows it;
the match is the maximal non-space run from there (`group(0)`). -/
def urlMatch : List Char → Option (List Char)
  | [] => none
  | c :: rest =>
    let here := c :: rest
    let n := schemeLen here
    let run := here.takeWhile (fun ch => !ch.isWhitespace)
    if n ≠ 0 && run.length > n then some run
    else urlMatch rest

/-- Query sanitization at the top of `play` (src/bot.py lines 364-367):
strip, then keep only the first URL-looking token if one is present. -/
def sanitizeQuery (raw : List Char) : List Char :=
  let t := trimChars raw
  match urlMatch t with
  | some u => u
  | none => t

/-- `SPOTIFY_REGEX.match(query)` (src/bot.py lines 73-75): anchored match of
`https?://open.spotify.com/(track|album|playlist)/[a-zA-Z0-9]+`. -/
def spotifyMatch (q : List Char) : Bool :=
  ["http://", "https://"].any fun s =>
    ["track/", "album/", "playlist/"].any fun k =>
      let pre := (s ++ "open.spotify.com/" ++ k).toList
      startsWithChars q pre &&
        match q.drop pre.length with
        | c :: _ => c.isAlphanum
        | [] => false

/-- The external services the resolution part of `play` consults.
`extract` is `yt_dlp_extract` (its cache behaviour is verified separately;
here it is an oracle from query to optional direct URL).  `searchDefault`
is `wavelink.Playable.search` with no source argument, `searchYouTube`
with `TrackSource.YouTube` (`none` models a raised `LavalinkException`,
which the code catches and turns into `tracks = None`), and
`searchSoundCloud` with `TrackSource.SoundCloud`.  Playlist results are
modelled as their track lists. -/
structure ResolveEnv where
  extract : List Char → Option (List Char)
  searchDefault : List Char → List Track
  searchYouTube : List Char → Option (List Track)
  searchSoundCloud : List Char → List Track

/-- `tracks` after the guarded YouTube search: an exception or an empty
result are both falsy for the following `if not tracks:` test. -/
def ytFlatten : Option (List Track) → List Track
  | none => []
  | some l => l

/-- The source-resolution dispatch of `play` (src/bot.py lines 369-406),
applied to an already-sanitized query. -/
def resolveCore (env : ResolveEnv) (q : List Char) : List Track :=
  if spotifyMatch q then
    env.searchDefault q
  else if startsWithChars q "scsearch:".toList then
    env.searchSoundCloud (trimChars (q.drop "scsearch:".toList.length))
  else if startsWithChars q "http://".toList || startsWithChars q "https://".toList then
    if containsChars "youtube.com".toList q || containsChars "youtu.be".toList q then
      match env.extract q with
      | some direct => env.searchDefault direct
      | none => env.searchDefault q
    else env.searchDefault q
  else
    match env.extract ("ytsearch1:".toList ++ q) with
    | some direct => env.searchDefault direct
    | none =>
      let yt := ytFlatten (env.searchYouTube q)
      if yt.isEmpty then env.searchSoundCloud q else yt

/-- The full resolution step of `play`: sanitize, then dispatch. -/
def resolveQuery (env : ResolveEnv) (raw : List Char) : List Track :=
  resolveCore env (sanitizeQuery raw)

/-! The module-level `YTDLP_CACHE` and `yt_dlp_extract`
(src/bot.py lines 24-69). -/

/-- The cache: key, resolved direct URL, expiry timestamp.  Python dict
assignment is modelled by consing with first-match lookup (newer entries
shadow older ones, observationally the dict). -/
def Cache := List (List Char × List Char × Nat)

/-- `cache_key = query.lower().strip()`. -/
def normKey (q : List Char) : List Char :=
  trimChars (lowerChars q)

/-- `YTDLP_CACHE.get(cache_key)`. -/
def cacheFind : Cache → List Char → Option (List Char × Nat)
  | [], _ => none
  | (k, u, e) :: rest, key => if k == key then some (u, e) else cacheFind rest key

/-- `YTDLP_CACHE[cache_key] = (url, expiry)`. -/
def cachePut (c : Cache) (key url : List Char) (expiry : Nat) : Cache :=
  (key, url, expiry) :: c

/-- The cache-read lines of `yt_dlp_extract` (src/bot.py lines 32-34):
`cached = YTDLP_CACHE.get(cache_key)`; a hit counts only while
`cached[1] > now`.  Takes the already-normalized key; never mutates. -/
def cacheGetKey (c : Cache) (key : List Char) (now : Nat) : Option (List Char) :=
  match cacheFind c key with
  | some (u, e) => if now < e then some u else none
  | none => none

/-- Configuration and external world of `yt_dlp_extract`: the
`YTDLP_ENABLED` flag, whether the cookies file exists, the cache TTL, and
the yt-dlp extraction oracle (the `entries`/`url` unwrapping of the
external info dict is collapsed into the oracle's optional result). -/
structure ExtractEnv where
  ytdlpEnabled : Bool
  cookiesExist : Bool
  ttl : Nat
  extractInfo : List Char → Option (List Char)

/-- `yt_dlp_extract` (src/bot.py lines 27-69) as a state-passing function
over the cache: returns the optional direct URL and the cache afterwards. -/
def yt_dlp_extract (env : ExtractEnv) (c : Cache) (now : Nat)
    (query : List Char) : Option (List Char) × Cache :=
  if !env.ytdlpEnabled then (none, c)
  else
    let key := normKey query
    match cacheGetKey c key now with
    | some u => (some u, c)
    | none =>
      if !env.cookiesExist then (none, c)
      else
        match env.extractInfo query with
        | none => (none, c)
        | some url => (some url, cachePut c key url (now + env.ttl))

/-! The `remove` command (src/bot.py lines 673-687). -/

/-- The user-visible outcome of `remove`. -/
inductive RemoveResult where
  | notInVoice
  | emptyQueue
  | rangeError (lo hi : Nat)
  | removed (t : Track)
  | internalError
  deriving DecidableEq

/-- `wavelink.Queue.delete(index)`: remove the item at the 0-based index,
returning it and the remaining queue (`none` for an out-of-range index,
where the library raises). -/
def queueDelete : List Track → Nat → Option (Track × List Track)
  | [], _ => none
  | t :: rest, 0 => some (t, rest)
  | t :: rest, n + 1 =>
    match queueDelete rest n with
    | some (r, rest2) => some (r, t :: rest2)
    | none => none

/-- The `remove` command: guards in source order (not in voice; empty
queue; `position < 1 or position > queue.count`, answered with
"Position must be between 1 and {count}"), then
`queue.delete(position - 1)`.  Returns the outcome and the queue
afterwards.  `pos` is the raw integer command argument. -/
def removeCmd (inVoice : Bool) (queue : List Track) (pos : Int) :
    RemoveResult × List Track :=
  if !inVoice then (.notInVoice, queue)
  else if queue.isEmpty then (.emptyQueue, queue)
  else if pos < 1 ∨ (queue.length : Int) < pos then
    (.rangeError 1 queue.length, queue)
  else
    match queueDelete queue (pos - 1).toNat with
    | some (t, rest) => (.removed t, rest)
    | none => (.internalError, queue)

/-! The per-guild settings table of `Database`
(src/database.py lines 42-49 and 81-123). -/

/-- One row of `user_settings`; the schema defaults are
`autoplay INTEGER DEFAULT 0` and `default_volume INTEGER DEFAULT 50`. -/
structure SettingsRow where
  autoplay : Int
  default_volume : Int
  deriving DecidableEq

/-- The table: `guild_id` is the primary key, modelled as an association
list with first-match lookup. -/
def SettingsDB := List (String × SettingsRow)

/-- `SELECT ... FROM user_settings WHERE guild_id = ?`. -/
def getRow : SettingsDB → String → Option SettingsRow
  | [], _ => none
  | (g, r) :: rest, gid => if g == gid then some r else getRow rest gid

/-- `INSERT ... ON CONFLICT(guild_id) DO UPDATE`: update the existing row
with `f`, or insert `ins` (whose unset columns carry the schema defaults). -/
def upsert (d : SettingsDB) (gid : String) (f : SettingsRow → SettingsRow)
    (ins : SettingsRow) : SettingsDB :=
  match d with
  | [] => [(gid, ins)]
  | (g, r) :: rest =>
    if g == gid then (g, f r) :: rest else (g, r) :: upsert rest gid f ins

/-- `Database.get_autoplay` (src/database.py lines 81-89):
`bool(result[0]) if result else False`. -/
def get_autoplay (d : SettingsDB) (gid : String) : Bool :=
  match getRow d gid with
  | some r => r.autoplay != 0
  | none => false

/-- `Database.set_autoplay` (src/database.py lines 91-101): upsert of the
`autoplay` column; an inserted row takes the column default 50 for
`default_volume`. -/
def set_autoplay (d : SettingsDB) (gid : String) (enabled : Bool) : SettingsDB :=
  upsert d gid (fun r => { r with autoplay := if enabled then 1 else 0 })
    { autoplay := if enabled then 1 else 0, default_volume := 50 }

/-- `Database.get_default_volume` (src/database.py lines 103-111):
`result[0] if result else 50`. -/
def get_default_volume (d : SettingsDB) (gid : String) : Int :=
  match getRow d gid with
  | some r => r.default_volume
  | none => 50

/-- `Database.set_default_volume` (src/database.py lines 113-123): upsert
of the `default_volume` column; an inserted row takes the column default 0
for `autoplay`. -/
def set_default_volume (d : SettingsDB) (gid : String) (vol : Int) : SettingsDB :=
  upsert d gid (fun r => { r with default_volume := vol })
    { autoplay := 0, default_volume := vol }

/-! `playlist save` (src/bot.py lines 886-934) and
`Database.get_playlist_tracks` (src/database.py lines 201-220). -/

/-- The queued-tracks loop of `playlist_save`: each track is written with
the running `position` counter. -/
def addQueueRows (queue : List Track) (pos : Nat) : List (Track × Nat) :=
  match queue with
  | [] => []
  | t :: rest => (t, pos) :: addQueueRows rest (pos + 1)

/-- The rows `playlist_save` writes for a fresh (or just-cleared)
playlist: `position = 0`; the current track first if present, then the
queue with the counter continuing. -/
def playlist_save_rows (current : Option Track) (queue : List Track) :
    List (Track × Nat) :=
  match current with
  | some c => (c, 0) :: addQueueRows queue 1
  | none => addQueueRows queue 0

/-- Comparison used to model SQL `ORDER BY position`. -/
def posLe (a b : Track × Nat) : Bool :=
  a.2 ≤ b.2

/-- Insert into a list sorted by `le`. -/
def insertBy (le : Track × Nat → Track × Nat → Bool) (a : Track × Nat) :
    List (Track × Nat) → List (Track × Nat)
  | [] => [a]
  | b :: bs => if le a b then a :: b :: bs else b :: insertBy le a bs

/-- Sort by `le` (insertion sort; rows have pairwise-distinct positions,
so any correct sort models `ORDER BY position`). -/
def sortBy (le : Track × Nat → Track × Nat → Bool) :
    List (Track × Nat) → List (Track × Nat)
  | [] => []
  | a :: as => insertBy le a (sortBy le as)

/-- `Database.get_playlist_tracks`: the stored rows ordered by
`position` ascending. -/
def get_playlist_tracks (rows : List (Track × Nat)) : List (Track × Nat) :=
  sortBy posLe rows

/-! Concrete sample data used by counterexamples and witnesses. -/

/-- A sample track. -/
def exTrackA : Track :=
  { title := "X", author := "Y", uri := "https://example.org/a", length := 180000 }

/-- A second sample track. -/
def exTrackB : Track :=
  { title := "B", author := "C", uri := "https://example.org/b", length := 200000 }

/-- A third sample track. -/
def exTrackC : Track :=
  { title := "D", author := "E", uri := "https://example.org/c", length := 150000 }

/-- A player with one queued track, no 24/7 attribute, no autoplay
attribute. -/
def exPlayerQueued : PlayerState :=
  { queue := [exTrackB], twentyfourseven := none, autoplay_enabled := none }

/-- A player with an empty queue and both flags absent. -/
def exPlayerIdle : PlayerState :=
  { queue := [], twentyfourseven := none, autoplay_enabled := none }

/-- A connected session around `exPlayerIdle` with no pending timers. -/
def exSysIdle : SysState :=
  { player := exPlayerIdle, pendingTimers := [], connected := true }

/-- A resolver world where the auxiliary extractor succeeds. -/
def exEnvExtractOk : ResolveEnv :=
  { extract := fun _ => some "https://cdn.example/direct".toList
    searchDefault := fun _ => [exTrackC]
    searchYouTube := fun _ => some [exTrackA]
    searchSoundCloud := fun _ => [exTrackB] }

/-- A resolver world where the extractor fails but catalog-a (YouTube)
search succeeds. -/
def exEnvYtOk : ResolveEnv :=
  { extract := fun _ => none
    searchDefault := fun _ => []
    searchYouTube := fun _ => some [exTrackA]
    searchSoundCloud := fun _ => [exTrackB] }

/-- A resolver world where both the extractor and catalog-a yield
nothing. -/
def exEnvExhausted : ResolveEnv :=
  { extract := fun _ => none
    searchDefault := fun _ => []
    searchYouTube := fun _ => none
    searchSoundCloud := fun _ => [exTrackB] }

/-! ## Theorems -/

/-- C1: counterexample.  A `trackEnded` event with `reason == replaced`
delivered to a player with a queued track: the handler dequeues and
starts that track anyway, because the source never inspects
`payload.reason` — contradicting the claim that no auto-advance happens
for `replaced`. -/
theorem c1_replaced_still_advances :
    (on_wavelink_track_end .replaced exPlayerQueued (some exTrackA)
        (fun _ => [])).1 = TrackEndAction.playNext exTrackB
    ∧ TrackEndAction.playNext exTrackB ≠ TrackEndAction.noAction := by
  constructor
  · rfl
  · decide

/-- C1 (amended): the track-end handler ignores the delivery reason
entirely — its result for `reason == replaced` coincides with its result
for every other reason — and in particular, with a non-empty queue it
dequeues the head and starts it even when the reason is `replaced`. -/
theorem track_end_ignores_reason (r r' : EndReason) (p : PlayerState)
    (ended : Option Track) (search : String → List Track)
    (next : Track) (rest : List Track) (hq : p.queue = next :: rest) :
    on_wavelink_track_end r p ended search
      = on_wavelink_track_end r' p ended search
    ∧ on_wavelink_track_end r p ended search
      = (TrackEndAction.playNext next, { p with queue := rest }) := by
  constructor
  · rfl
  · unfold on_wavelink_track_end
    rw [hq]
    simp

/-- C1 (amended) witness at a concrete replaced-reason event. -/
theorem track_end_ignores_reason_witness :
    on_wavelink_track_end .replaced exPlayerQueued (some exTrackA) (fun _ => [])
      = on_wavelink_track_end .finished exPlayerQueued (some exTrackA) (fun _ => [])
    ∧ on_wavelink_track_end .replaced exPlayerQueued (some exTrackA) (fun _ => [])
      = (TrackEndAction.playNext exTrackB, { exPlayerQueued with queue := [] }) :=
  track_end_ignores_reason .replaced .finished exPlayerQueued (some exTrackA)
    (fun _ => []) exTrackB [] rfl

/-- C2: counterexample.  A `trackEnded` event with the queue empty,
autoplay disabled and 24/7 off: the claim says the idle-disconnect timer
is armed immediately, but the track-end handler contains no timer code —
the pending-timer list stays empty (the session does stay connected). -/
theorem c2_no_timer_on_queue_exhaustion :
    (sysStep 1000 exSysIdle (.trackEnd .finished (some exTrackA)
        (fun _ => []))).pendingTimers = []
    ∧ (sysStep 1000 exSysIdle (.trackEnd .finished (some exTrackA)
        (fun _ => []))).connected = true := by
  constructor <;> rfl

/-- C2 (amended): when a track ends with the queue empty and autoplay
disabled, the handler takes no action and the session merely stays
connected with nothing playing; no idle-disconnect timer is armed by the
track-end handler (timers are armed only by voice-occupancy updates). -/
theorem track_end_exhausted_idles (now : Nat) (s : SysState) (r : EndReason)
    (ended : Option Track) (search : String → List Track)
    (hq : s.player.queue = []) (hap : attrTrue s.player.autoplay_enabled = false) :
    (on_wavelink_track_end r s.player ended search).1 = TrackEndAction.noAction
    ∧ (sysStep now s (.trackEnd r ended search)).pendingTimers = s.pendingTimers
    ∧ (sysStep now s (.trackEnd r ended search)).connected = s.connected
    ∧ (sysStep now s (.trackEnd r ended search)).player = s.player := by
  have hmain : on_wavelink_track_end r s.player ended search
      = (TrackEndAction.noAction, s.player) := by
    unfold on_wavelink_track_end
    rw [hq]
    split
    · rfl
    · simp [hap]
  refine ⟨by rw [hmain], ?_, ?_, ?_⟩ <;> simp [sysStep, hmain]

/-- C2 (amended) witness at a concrete exhausted-queue event. -/
theorem track_end_exhausted_idles_witness :
    (on_wavelink_track_end .stopped exPlayerIdle (some exTrackA)
        (fun _ => [])).1 = TrackEndAction.noAction
    ∧ (sysStep 1000 exSysIdle (.trackEnd .stopped (some exTrackA)
        (fun _ => []))).pendingTimers = exSysIdle.pendingTimers
    ∧ (sysStep 1000 exSysIdle (.trackEnd .stopped (some exTrackA)
        (fun _ => []))).connected = exSysIdle.connected
    ∧ (sysStep 1000 exSysIdle (.trackEnd .stopped (some exTrackA)
        (fun _ => []))).player = exSysIdle.player :=
  track_end_exhausted_idles 1000 exSysIdle .stopped (some exTrackA)
    (fun _ => []) rfl rfl

/-- C3: when a track ends with the queue exhausted and autoplay enabled,
the handler searches with a query built from the finished track's title
and author (`ytsearch:` targets catalog-a) and plays exactly the second
ranked result when at least two results come back; with fewer than two
results nothing is played and the player state is left unchanged (idle
handling, which for this handler is doing nothing further). -/
theorem autoplay_second_ranked (p : PlayerState) (tr : Track)
    (search : String → List Track) (r : EndReason)
    (hq : p.queue = []) (hap : p.autoplay_enabled = some true) :
    on_wavelink_track_end r p (some tr) search
      = (match search ("ytsearch:" ++ tr.title ++ " " ++ tr.author) with
         | _ :: second :: _ => TrackEndAction.playAutoplay second
         | _ => TrackEndAction.noAction, p) := by
  unfold on_wavelink_track_end
  rw [hq, hap]
  simp only [attrTrue, Option.isNone_some, Bool.and_false, Bool.false_eq_true,
    if_false, if_true]
  cases search ("ytsearch:" ++ tr.title ++ " " ++ tr.author) with
  | nil => rfl
  | cons a l => cases l <;> rfl

/-- C3 witness: a three-result search plays the second result; a
one-result search plays nothing. -/
theorem autoplay_second_ranked_witness :
    on_wavelink_track_end .finished
        { exPlayerIdle with autoplay_enabled := some true } (some exTrackA)
        (fun _ => [exTrackA, exTrackB, exTrackC])
      = (match (fun (_ : String) => [exTrackA, exTrackB, exTrackC])
            ("ytsearch:" ++ exTrackA.title ++ " " ++ exTrackA.author) with
         | _ :: second :: _ => TrackEndAction.playAutoplay second
         | _ => TrackEndAction.noAction,
         { exPlayerIdle with autoplay_enabled := some true })
    ∧ on_wavelink_track_end .finished
        { exPlayerIdle with autoplay_enabled := some true } (some exTrackA)
        (fun _ => [exTrackA])
      = (match (fun (_ : String) => [exTrackA])
            ("ytsearch:" ++ exTrackA.title ++ " " ++ exTrackA.author) with
         | _ :: second :: _ => TrackEndAction.playAutoplay second
         | _ => TrackEndAction.noAction,
         { exPlayerIdle with autoplay_enabled := some true }) :=
  ⟨autoplay_second_ranked _ exTrackA _ .finished rfl rfl,
   autoplay_second_ranked _ exTrackA _ .finished rfl rfl⟩

/-- C6: counterexample.  The deferred disconnect is an inline
`asyncio.sleep(120)`: two occupancy-empty events (at t=100 and t=200)
leave two timers outstanding at once, and a subsequent `leave` cancels
neither — contradicting "at most one outstanding, superseded on
rescheduling, cancelled on leave()". -/
theorem c6_two_timers_outstanding :
    (sysStep 200 (sysStep 100 exSysIdle (.voiceUpdate false true 0))
        (.voiceUpdate false true 0)).pendingTimers = [320, 220]
    ∧ (sysStep 300 (sysStep 200 (sysStep 100 exSysIdle
          (.voiceUpdate false true 0)) (.voiceUpdate false true 0))
        (.leaveCmd true)).pendingTimers = [320, 220] := by
  constructor <;> rfl

/-- C6 (amended): pending deferred-disconnect sleeps are never cancelled
or superseded: an occupancy-empty event outside 24/7 mode adds one more
timer on top of whatever is pending, and neither `leave` nor toggling
24/7 removes a pending timer.  Staleness is compensated only at fire
time, when channel validity, occupancy and 24/7 are re-checked. -/
theorem timers_accumulate (now now2 : Nat) (s : SysState)
    (h247 : attrTrue s.player.twentyfourseven = false) :
    (sysStep now s (.voiceUpdate false true 0)).pendingTimers
      = (now + 120) :: s.pendingTimers
    ∧ (sysStep now2 s (.leaveCmd true)).pendingTimers = s.pendingTimers
    ∧ (sysStep now2 s (.toggle247 true)).pendingTimers = s.pendingTimers := by
  refine ⟨?_, rfl, rfl⟩
  simp [sysStep, voiceUpdateArm, h247]

/-- C6 (amended) witness on a concrete idle session. -/
theorem timers_accumulate_witness :
    (sysStep 100 exSysIdle (.voiceUpdate false true 0)).pendingTimers
      = (100 + 120) :: exSysIdle.pendingTimers
    ∧ (sysStep 300 exSysIdle (.leaveCmd true)).pendingTimers
      = exSysIdle.pendingTimers
    ∧ (sysStep 300 exSysIdle (.toggle247 true)).pendingTimers
      = exSysIdle.pendingTimers :=
  timers_accumulate 100 300 exSysIdle rfl

/-- C7: when the 120-second deferred disconnect fires, occupancy and 24/7
are re-read; if the channel holds at least one non-bot occupant at fire
time, or 24/7 is enabled at fire time, no disconnect happens — the
session's connection state is untouched regardless of what held at
schedule time. -/
theorem fire_time_recheck (now fireAt : Nat) (s : SysState) (chValid : Bool)
    (n : Nat) (h : 1 ≤ n ∨ attrTrue s.player.twentyfourseven = true) :
    voiceUpdateFire chValid n s.player.twentyfourseven = false
    ∧ (sysStep now s (.timerFire fireAt chValid n)).connected = s.connected := by
  have hf : voiceUpdateFire chValid n s.player.twentyfourseven = false := by
    unfold voiceUpdateFire
    rcases h with h | h
    · have : (n == 0) = false := by
        simp only [beq_eq_false_iff_ne, ne_eq]
        omega
      simp [this]
    · simp [h]
  exact ⟨hf, by simp [sysStep, hf]⟩

/-- C7 witness: a timer firing against a channel re-occupied by one
non-bot member does not disconnect. -/
theorem fire_time_recheck_witness :
    voiceUpdateFire true 1 exSysIdle.player.twentyfourseven = false
    ∧ (sysStep 220 exSysIdle (.timerFire 220 true 1)).connected
      = exSysIdle.connected :=
  fire_time_recheck 220 220 exSysIdle true 1 (Or.inl (by decide))

/-- C4: for a free-text query (after sanitization: no Spotify match, no
`scsearch:` directive, not a URL), resolution tries the auxiliary
extractor on the synthesized `ytsearch1:` top-1 query first — on success
its extracted identifier is resolved directly (`envS` world); only on
extractor failure is catalog-a (YouTube) searched, and a non-empty
catalog-a result is returned as-is, with catalog-b (SoundCloud) never
reached — the outcome is identical under every possible SoundCloud
backend `sc2` (`envF` world); only when catalog-a also yields nothing
(exception or empty) is catalog-b queried (`envE` world). -/
theorem resolve_fallback_order (envS envF envE : ResolveEnv)
    (sc2 : List Char → List Track) (raw u : List Char) (l : List Track)
    (h1 : spotifyMatch (sanitizeQuery raw) = false)
    (h2 : startsWithChars (sanitizeQuery raw) "scsearch:".toList = false)
    (h3 : startsWithChars (sanitizeQuery raw) "http://".toList = false)
    (h4 : startsWithChars (sanitizeQuery raw) "https://".toList = false)
    (hS : envS.extract ("ytsearch1:".toList ++ sanitizeQuery raw) = some u)
    (hF : envF.extract ("ytsearch1:".toList ++ sanitizeQuery raw) = none)
    (hyt : envF.searchYouTube (sanitizeQuery raw) = some l)
    (hne : l ≠ [])
    (hE : envE.extract ("ytsearch1:".toList ++ sanitizeQuery raw) = none)
    (hytE : ytFlatten (envE.searchYouTube (sanitizeQuery raw)) = []) :
    resolveQuery envS raw = envS.searchDefault u
    ∧ resolveQuery envF raw = l
    ∧ resolveQuery { envF with searchSoundCloud := sc2 } raw = l
    ∧ resolveQuery envE raw = envE.searchSoundCloud (sanitizeQuery raw) := by
  have hle : l.isEmpty = false := by
    cases l with
    | nil => exact absurd rfl hne
    | cons a t => rfl
  refine ⟨?_, ?_, ?_, ?_⟩
  · unfold resolveQuery resolveCore
    simp only [h1, h2, h3, h4, hS]
    simp
  · unfold resolveQuery resolveCore
    simp only [h1, h2, h3, h4, hF, hyt]
    simp [ytFlatten, hle]
  · unfold resolveQuery resolveCore
    dsimp only
    simp only [h1, h2, h3, h4, hF, hyt]
    simp [ytFlatten, hle]
  · unfold resolveQuery resolveCore
    simp only [h1, h2, h3, h4, hE, hytE]
    simp

/-- C4 witness: for the free-text query `hello`, the three worlds return
the extractor-resolved track, catalog-a's track (for any SoundCloud
behaviour), and catalog-b's track respectively. -/
theorem resolve_fallback_order_witness :
    resolveQuery exEnvExtractOk "hello".toList
      = exEnvExtractOk.searchDefault "https://cdn.example/direct".toList
    ∧ resolveQuery exEnvYtOk "hello".toList = [exTrackA]
    ∧ resolveQuery { exEnvYtOk with searchSoundCloud := fun _ => [exTrackC] }
        "hello".toList = [exTrackA]
    ∧ resolveQuery exEnvExhausted "hello".toList
      = exEnvExhausted.searchSoundCloud (sanitizeQuery "hello".toList) :=
  resolve_fallback_order exEnvExtractOk exEnvYtOk exEnvExhausted
    (fun _ => [exTrackC]) "hello".toList "https://cdn.example/direct".toList
    [exTrackA] rfl rfl rfl rfl rfl rfl rfl (by decide) rfl rfl

/-- C5: cache TTL discipline of `yt_dlp_extract`.  After a put of `u`
for query `q` at time `t` with TTL `env.ttl` (expiry `t + env.ttl`):
a get at any `t1 < t + env.ttl` returns `u` and leaves the cache
untouched; at any `t2 ≥ t + env.ttl` the entry is treated as absent
(the cache read yields nothing); and such an expired read is
side-effect-free — with the extraction oracle yielding nothing, the
whole call returns the cache exactly as it found it. -/
theorem cache_ttl (env : ExtractEnv) (c : Cache) (q u : List Char)
    (t t1 t2 : Nat)
    (hen : env.ytdlpEnabled = true)
    (hfresh : t1 < t + env.ttl)
    (hexp : t + env.ttl ≤ t2)
    (hfail : env.extractInfo q = none) :
    yt_dlp_extract env (cachePut c (normKey q) u (t + env.ttl)) t1 q
      = (some u, cachePut c (normKey q) u (t + env.ttl))
    ∧ cacheGetKey (cachePut c (normKey q) u (t + env.ttl)) (normKey q) t2 = none
    ∧ yt_dlp_extract env (cachePut c (normKey q) u (t + env.ttl)) t2 q
      = (none, cachePut c (normKey q) u (t + env.ttl)) := by
  have hget1 : cacheGetKey (cachePut c (normKey q) u (t + env.ttl))
      (normKey q) t1 = some u := by
    unfold cacheGetKey cachePut cacheFind
    simp [hfresh]
  have hget2 : cacheGetKey (cachePut c (normKey q) u (t + env.ttl))
      (normKey q) t2 = none := by
    unfold cacheGetKey cachePut cacheFind
    have : ¬ t2 < t + env.ttl := by omega
    simp [this]
  refine ⟨?_, hget2, ?_⟩
  · unfold yt_dlp_extract
    simp [hen, hget1]
  · unfold yt_dlp_extract
    simp only [hen, Bool.not_true, Bool.false_eq_true, if_false, hget2]
    cases hc : env.cookiesExist <;> simp [hc, hfail]

/-- C5 witness on a concrete world: TTL 1800, put at t=0, fresh get at
t=100, expired get at t=1800. -/
theorem cache_ttl_witness :
    yt_dlp_extract
        { ytdlpEnabled := true, cookiesExist := true, ttl := 1800,
          extractInfo := fun _ => none }
        (cachePut [] (normKey "Song Q".toList) "https://u".toList (0 + 1800))
        100 "Song Q".toList
      = (some "https://u".toList,
         cachePut [] (normKey "Song Q".toList) "https://u".toList (0 + 1800))
    ∧ cacheGetKey
        (cachePut [] (normKey "Song Q".toList) "https://u".toList (0 + 1800))
        (normKey "Song Q".toList) 1800 = none
    ∧ yt_dlp_extract
        { ytdlpEnabled := true, cookiesExist := true, ttl := 1800,
          extractInfo := fun _ => none }
        (cachePut [] (normKey "Song Q".toList) "https://u".toList (0 + 1800))
        1800 "Song Q".toList
      = (none,
         cachePut [] (normKey "Song Q".toList) "https://u".toList (0 + 1800)) :=
  cache_ttl
    { ytdlpEnabled := true, cookiesExist := true, ttl := 1800,
      extractInfo := fun _ => none }
    [] "Song Q".toList "https://u".toList 0 100 1800
    rfl (by decide) (by decide) rfl

/-- `queue.delete(i)` at the 0-based index `i = a.length` of
`a ++ t :: b` removes and returns exactly `t`. -/
theorem queueDelete_append (a b : List Track) (t : Track) :
    queueDelete (a ++ t :: b) a.length = some (t, a ++ b) := by
  induction a with
  | nil => rfl
  | cons x xs ih => simp [queueDelete, ih]

/-- C8: counterexample.  `remove` on an empty queue with position 1
(outside `[1, 0]`) fails with the dedicated empty-queue error, not with a
range error naming the valid bounds as the claim states (the queue is
still left unchanged). -/
theorem c8_empty_queue_not_range_error :
    removeCmd true [] 1 = (RemoveResult.emptyQueue, [])
    ∧ RemoveResult.emptyQueue ≠ RemoveResult.rangeError 1 0 := by
  constructor
  · rfl
  · decide

/-- C8 (amended): on a non-empty queue, a position outside `[1, count]`
fails with a range error naming the bounds 1 and `count` and leaves the
queue unchanged; a position inside `[1, count]` removes and returns the
item at 0-based internal index `position - 1`; on an empty queue any
position fails with the empty-queue error (queue unchanged). -/
theorem remove_spec (queue a b : List Track) (t : Track) (pos pos2 : Int)
    (hout : pos < 1 ∨ (queue.length : Int) < pos)
    (hsplit : queue = a ++ t :: b)
    (hp2 : pos2 = (a.length : Int) + 1) :
    removeCmd true queue pos = (RemoveResult.rangeError 1 queue.length, queue)
    ∧ removeCmd true queue pos2 = (RemoveResult.removed t, a ++ b)
    ∧ removeCmd true [] pos = (RemoveResult.emptyQueue, []) := by
  have hemp : queue.isEmpty = false := by
    rw [hsplit]; cases a <;> rfl
  refine ⟨?_, ?_, rfl⟩
  · unfold removeCmd
    have hcond : pos < 1 ∨ (queue.length : Int) < pos := hout
    simp [hemp, hcond]
  · unfold removeCmd
    have hlen : (queue.length : Int) = (a.length : Int) + 1 + (b.length : Int) := by
      rw [hsplit]; simp; omega
    have hcond : ¬ (pos2 < 1 ∨ (queue.length : Int) < pos2) := by
      rw [hlen, hp2]; omega
    have hidx : (pos2 - 1).toNat = a.length := by
      rw [hp2]; omega
    rw [hemp]
    simp only [Bool.not_true, Bool.false_eq_true, if_false, hcond, hidx, hsplit]
    simp [queueDelete_append]
    omega

/-- C8 (amended) witness: on the queue `[A, B]`, position 3 is a range
error naming `[1, 2]`, position 2 removes `B`, and the empty queue gives
the empty-queue error. -/
theorem remove_spec_witness :
    removeCmd true [exTrackA, exTrackB] 3
      = (RemoveResult.rangeError 1 [exTrackA, exTrackB].length,
         [exTrackA, exTrackB])
    ∧ removeCmd true [exTrackA, exTrackB] 2
      = (RemoveResult.removed exTrackB, [exTrackA] ++ [])
    ∧ removeCmd true [] 3 = (RemoveResult.emptyQueue, []) :=
  remove_spec [exTrackA, exTrackB] [exTrackA] [] exTrackB 3 2
    (Or.inr (by decide)) rfl (by decide)

/-- An upsert into a table that has no row for `g` creates exactly the
`ins` row for `g`. -/
theorem getRow_upsert_absent (d : SettingsDB) (g : String)
    (f : SettingsRow → SettingsRow) (ins : SettingsRow)
    (habs : getRow d g = none) :
    getRow (upsert d g f ins) g = some ins := by
  induction d with
  | nil => simp [upsert, getRow]
  | cons e rest ih =>
    obtain ⟨g2, r⟩ := e
    by_cases hg : (g2 == g) = true
    · rw [getRow] at habs
      simp [hg] at habs
    · rw [getRow] at habs
      simp only [hg, Bool.false_eq_true, if_false] at habs
      rw [upsert]
      simp only [hg, Bool.false_eq_true, if_false]
      rw [getRow]
      simp only [hg, Bool.false_eq_true, if_false]
      exact ih habs

/-- C9: a guild with no stored settings row gets the implicit defaults —
volume 50 and autoplay off; and because an inserted row carries the
schema's column defaults, each default also survives the other setter's
first write: after `set_autoplay` alone the default volume is still 50,
and after `set_default_volume` alone autoplay is still off. -/
theorem settings_defaults (d : SettingsDB) (g : String) (b : Bool) (v : Int)
    (habs : getRow d g = none) :
    get_default_volume d g = 50
    ∧ get_autoplay d g = false
    ∧ get_default_volume (set_autoplay d g b) g = 50
    ∧ get_autoplay (set_default_volume d g v) g = false := by
  have h1 : getRow (set_autoplay d g b) g
      = some { autoplay := if b then 1 else 0, default_volume := 50 } :=
    getRow_upsert_absent d g _ _ habs
  have h2 : getRow (set_default_volume d g v) g
      = some { autoplay := 0, default_volume := v } :=
    getRow_upsert_absent d g _ _ habs
  refine ⟨?_, ?_, ?_, ?_⟩ <;>
    simp [get_default_volume, get_autoplay, habs, h1, h2]

/-- C9 witness on an empty settings table. -/
theorem settings_defaults_witness :
    get_default_volume [] "42" = 50
    ∧ get_autoplay [] "42" = false
    ∧ get_default_volume (set_autoplay [] "42" true) "42" = 50
    ∧ get_autoplay (set_default_volume [] "42" 70) "42" = false :=
  settings_defaults [] "42" true 70 rfl

/-- The tracks written by the queue loop of `playlist_save`, in order. -/
theorem map_fst_addQueueRows (q : List Track) (p : Nat) :
    (addQueueRows q p).map Prod.fst = q := by
  induction q generalizing p with
  | nil => rfl
  | cons t rest ih => simp [addQueueRows, ih]

/-- The positions written by the queue loop of `playlist_save` are the
consecutive integers starting at the running counter. -/
theorem map_snd_addQueueRows (q : List Track) (p : Nat) :
    (addQueueRows q p).map Prod.snd = List.range' p q.length := by
  induction q generalizing p with
  | nil => rfl
  | cons t rest ih => simp [addQueueRows, ih, List.range'_succ]

/-- Inserting a position-0 row in front of queue rows keeps it first. -/
theorem insertBy_zero_front (c : Track) (q : List Track) (p : Nat) :
    insertBy posLe (c, 0) (addQueueRows q p) = (c, 0) :: addQueueRows q p := by
  cases q with
  | nil => rfl
  | cons t rest => simp [addQueueRows, insertBy, posLe]

/-- The queue rows are already sorted by position, so the `ORDER BY`
sort returns them unchanged. -/
theorem sortBy_addQueueRows (q : List Track) (p : Nat) :
    sortBy posLe (addQueueRows q p) = addQueueRows q p := by
  induction q generalizing p with
  | nil => rfl
  | cons t rest ih =>
    rw [addQueueRows, sortBy, ih]
    cases rest with
    | nil => rfl
    | cons u rest2 => simp [addQueueRows, insertBy, posLe]

/-- C10: `playlist save` writes the currently playing track (if any)
first and then the queued tracks, with consecutive positions 0,1,2,…;
`get_playlist_tracks` orders by position ascending; hence a save followed
by a load yields the tracks in the original play order. -/
theorem playlist_round_trip (cur : Option Track) (q : List Track) :
    (get_playlist_tracks (playlist_save_rows cur q)).map Prod.fst
      = cur.toList ++ q
    ∧ (playlist_save_rows cur q).map Prod.snd
      = List.range (cur.toList ++ q).length := by
  cases cur with
  | none =>
    refine ⟨?_, ?_⟩
    · simp [playlist_save_rows, get_playlist_tracks, sortBy_addQueueRows,
        map_fst_addQueueRows]
    · simp [playlist_save_rows, map_snd_addQueueRows, List.range_eq_range']
  | some c =>
    refine ⟨?_, ?_⟩
    · rw [playlist_save_rows, get_playlist_tracks, sortBy,
        sortBy_addQueueRows, insertBy_zero_front]
      simp [map_fst_addQueueRows]
    · rw [playlist_save_rows]
      simp [map_snd_addQueueRows, List.range_eq_range', List.range'_succ,
        Nat.add_comm]

end MusicBot
